import Mathlib

/-!
Shallow embedding of the synchronization core of the dark-mode toolbar addon
(source: src/Tool.tsx). The persisted preference record, the localStorage
slot, the merge-and-persist reader, the class/attribute applicators
and the mode-changing operations are translated into executable Lean
definitions; DOM/channel side effects are recorded as an event trace.
-/

namespace SB

/-- Mode, the two-valued display preference (Tool.tsx line 19-20). -/
inductive Mode
  | light
  | dark
deriving DecidableEq, Repr

/-- DarkModePreviewParams (Tool.tsx lines 38-49): how the preview iframe is
edited. `attributeTarget` has no default (Tool.tsx line 61), hence optional. -/
structure DarkModePreviewParams where
  classTarget : String
  attributeTarget : Option String
  attributeName : String
  darkAttribute : String
  lightAttribute : String
deriving DecidableEq, Repr

/-- The runtime shape of the persisted record (interface DarkModeParams,
Tool.tsx lines 22-35). `defaultParams` (line 54) omits `current` and
`previewParams`, and the component destructures `current` away before the
first `store` call, so at runtime those two fields can be `undefined`:
they are modelled as `Option`. Theme values (`ThemeVars`) are opaque
structurally-compared data, modelled as `Nat`. -/
structure DarkModeParams where
  current : Option Mode
  dark : Nat
  darkClass : String
  light : Nat
  lightClass : String
  previewParams : Option DarkModePreviewParams
deriving DecidableEq, Repr

/-- A `Partial<DarkModeParams>` override object as passed by the caller
(the `darkMode` parameter, or the `userTheme` argument of `store`). -/
structure Overrides where
  current : Option Mode := none
  dark : Option Nat := none
  darkClass : Option String := none
  light : Option Nat := none
  lightClass : Option String := none
  previewParams : Option DarkModePreviewParams := none
deriving DecidableEq, Repr

/-- The empty override object `{}` (the default argument of `store`). -/
def noOverrides : Overrides := {}

/-- Stand-in for the opaque `themes.dark` value. -/
def defaultDarkTheme : Nat := 0

/-- Stand-in for the opaque `themes.light` value (distinct from dark). -/
def defaultLightTheme : Nat := 1

/-- The content of the localStorage slot under `sb-addon-themes-3`: either a
JSON serialization of a record (deserializable) or a malformed string on
which `JSON.parse` throws. -/
inductive SlotContent
  | record (r : DarkModeParams)
  | malformed (s : String)
deriving DecidableEq, Repr

/-- The storage slot itself; `none` models `localStorage.getItem` returning
`null` (no persisted record). -/
abbrev Slot := Option SlotContent

/-- Observable side effects of the core, in execution order: a storage
write (`updateStore`), `api.setOptions`, the React `setDark` state update,
the channel emission of DARK_MODE_EVENT_NAME, and the invocations of the
manager and preview applicators. -/
inductive Ev
  | write (r : DarkModeParams)
  | setOptions (theme : Nat)
  | setDark (isDark : Bool)
  | emitDark (isDark : Bool)
  | managerUpdate (r : DarkModeParams)
  | previewUpdate (r : DarkModeParams)
deriving DecidableEq, Repr

/-- updateStore (Tool.tsx lines 69-71): serialize and write the full record
to the storage slot, replacing any prior value. -/
def updateStore (r : DarkModeParams) (_slot : Slot) : Slot × List Ev :=
  (some (SlotContent.record r), [Ev.write r])

/-- The spread `{ ...defaultParams, ...userTheme }` (Tool.tsx line 160):
fields present in the override win, the four fields of `defaultParams`
(lines 54-59) fill the rest, and `current` / `previewParams` stay absent
unless supplied. -/
def mergeDefaults (u : Overrides) : DarkModeParams :=
  { current := u.current
    dark := u.dark.getD defaultDarkTheme
    darkClass := u.darkClass.getD "dark"
    light := u.light.getD defaultLightTheme
    lightClass := u.lightClass.getD "light"
    previewParams := u.previewParams }

/-- store (Tool.tsx lines 139-161): read the slot; on a malformed string
`JSON.parse` throws (propagated as `Except.error`); on a stored record,
write-through each of the two theme fields supplied by `userTheme` whose
value differs structurally (fast-deep-equal) from the stored one; on an
empty slot return the defaults merged with the overrides without writing.
The returned trace lists the `updateStore` calls made, in order. -/
def store (slot : Slot) (userTheme : Overrides) :
    Except String (DarkModeParams × Slot × List Ev) :=
  match slot with
  | some (SlotContent.malformed s) =>
      Except.error ("SyntaxError: JSON.parse on " ++ s)
  | some (SlotContent.record stored) =>
      let step1 : DarkModeParams × List Ev :=
        match userTheme.dark with
        | some d =>
            if d ≠ stored.dark then
              ({ stored with dark := d }, [Ev.write { stored with dark := d }])
            else (stored, [])
        | none => (stored, [])
      let step2 : DarkModeParams × List Ev :=
        match userTheme.light with
        | some l =>
            if l ≠ step1.1.light then
              ({ step1.1 with light := l },
               step1.2 ++ [Ev.write { step1.1 with light := l }])
            else step1
        | none => step1
      let slotAfter : Slot :=
        match step2.2 with
        | [] => slot
        | _ => some (SlotContent.record step2.1)
      Except.ok (step2.1, slotAfter, step2.2)
  | none => Except.ok (mergeDefaults userTheme, none, [])

/-- classList.add: appends the class unless already present. -/
def classListAdd (cls : List String) (c : String) : List String :=
  if c ∈ cls then cls else cls ++ [c]

/-- classList.remove: removes every occurrence of the class. -/
def classListRemove (cls : List String) (c : String) : List String :=
  cls.filter (fun x => decide (x ≠ c))

/-- toggleDarkClass (Tool.tsx lines 74-82): on `current === 'dark'` add the
dark class and remove the light class, otherwise add the light class and
remove the dark class. An absent `current` is not `'dark'`, so it takes the
light branch. -/
def toggleDarkClass (cls : List String) (r : DarkModeParams) : List String :=
  if r.current = some Mode.dark then
    classListRemove (classListAdd cls r.darkClass) r.lightClass
  else
    classListRemove (classListAdd cls r.lightClass) r.darkClass

/-- The theme lookup `currentStore[mode]` (Tool.tsx line 183). -/
def themeFor (r : DarkModeParams) : Mode → Nat
  | Mode.dark => r.dark
  | Mode.light => r.light

/-- setMode (Tool.tsx lines 180-193): load the record, then in order call
`api.setOptions`, the React state update `setDark`, emit the public
notification with boolean payload `mode === 'dark'`, run the manager (host
shell) applicator, and, when the component-level `previewParams` is set,
the preview (embedded frame) applicator. The writes performed by the
initial `store()` call (always none, since the overrides are empty) are
prepended to the trace. -/
def setMode (slot : Slot) (pp : Bool) (mode : Mode) :
    Except String (Slot × List Ev) :=
  match store slot noOverrides with
  | Except.error e => Except.error e
  | Except.ok (cur, slot1, w) =>
      Except.ok (slot1,
        w ++ [Ev.setOptions (themeFor cur mode),
              Ev.setDark (mode == Mode.dark),
              Ev.emitDark (mode == Mode.dark),
              Ev.managerUpdate cur]
          ++ (if pp then [Ev.previewUpdate cur] else []))

/-- updateMode (Tool.tsx lines 196-206): load the record, resolve the target
as the explicit mode when given (`mode || ...`; both mode strings are
truthy), else the complement of the record's current (`=== 'dark' ?
'light' : 'dark'`), persist the record with `current` set to the target,
then invoke `setMode` on the target. -/
def updateMode (slot : Slot) (pp : Bool) (mode : Option Mode) :
    Except String (Slot × List Ev) :=
  match store slot noOverrides with
  | Except.error e => Except.error e
  | Except.ok (cur, slot1, w1) =>
      let tgt : Mode :=
        match mode with
        | some m => m
        | none => if cur.current = some Mode.dark then Mode.light else Mode.dark
      let write1 := updateStore { cur with current := some tgt } slot1
      match setMode write1.1 pp tgt with
      | Except.error e => Except.error e
      | Except.ok (slot3, w3) => Except.ok (slot3, w1 ++ write1.2 ++ w3)

/-- renderTheme (Tool.tsx lines 214-217): load the record, default an
absent `current` to light, and invoke `setMode` on it. -/
def renderTheme (slot : Slot) (pp : Bool) : Except String (Slot × List Ev) :=
  match store slot noOverrides with
  | Except.error e => Except.error e
  | Except.ok (cur, slot1, w1) =>
      match setMode slot1 pp (cur.current.getD Mode.light) with
      | Except.error e => Except.error e
      | Except.ok (slot2, w2) => Except.ok (slot2, w1 ++ w2)

/-- The spread `{ ...currentStore, ...darkModeParams }` (Tool.tsx line 223):
every field supplied by the parameter object overrides the stored one. -/
def spreadOverrides (base : DarkModeParams) (u : Overrides) : DarkModeParams :=
  { current := match u.current with | some m => some m | none => base.current
    dark := u.dark.getD base.dark
    darkClass := u.darkClass.getD base.darkClass
    light := u.light.getD base.light
    lightClass := u.lightClass.getD base.lightClass
    previewParams :=
      match u.previewParams with | some p => some p | none => base.previewParams }

/-- The rest-destructuring `const { current: defaultMode, previewParams,
...params } = darkModeParams` (Tool.tsx line 172): the object passed to the
initial `store(params)` call never carries `current` or `previewParams`. -/
def restParams (u : Overrides) : Overrides :=
  { u with current := none, previewParams := none }

/-- The initialization effect (Tool.tsx lines 251-262) reduced to the
argument it passes to `updateMode`: nothing when a persisted mode existed
at first read (`if (initialMode) return`), else the caller default when
supplied, else dark when the system media query matches, else nothing. -/
def initEffect (initialMode defaultMode : Option Mode)
    (prefersDarkMatches : Bool) : Option Mode :=
  if initialMode.isSome then none
  else
    match defaultMode with
    | some d => some d
    | none => if prefersDarkMatches then some Mode.dark else none

/-- The first mount of the DarkMode component (Tool.tsx lines 169-276), in
React order: the render computes `initialMode := store(params).current`
(memo, line 177); the configuration-load effect (lines 220-225) merges the
full parameter object over the stored record, persists it, and calls
`renderTheme`; finally the initialization effect (lines 251-262) runs. -/
def mount (slot : Slot) (dmp : Overrides) (prefersDarkMatches : Bool) :
    Except String (Slot × List Ev) := do
  let pp := dmp.previewParams.isSome
  let (r0, slot0, w0) ← store slot (restParams dmp)
  let initialMode := r0.current
  let (r1, slot1, w1) ← store slot0 noOverrides
  let write1 := updateStore (spreadOverrides r1 dmp) slot1
  let (slot3, w3) ← renderTheme write1.1 pp
  match initEffect initialMode dmp.current prefersDarkMatches with
  | none => return (slot3, w0 ++ w1 ++ write1.2 ++ w3)
  | some m =>
      let (slot4, w4) ← updateMode slot3 pp (some m)
      return (slot4, w0 ++ w1 ++ write1.2 ++ w3 ++ w4)

/-- The persisted `current` field of the slot, when the slot holds a
deserializable record. -/
def slotCurrent : Slot → Option (Option Mode)
  | some (SlotContent.record r) => some r.current
  | _ => none

/-- The complement used by the argument-less toggle. -/
def flipMode : Mode → Mode
  | Mode.light => Mode.dark
  | Mode.dark => Mode.light

/-- Recognizer for the public notification event. -/
def isEmitEv : Ev → Bool
  | Ev.emitDark _ => true
  | _ => false

/-- Recognizer for the host-shell applicator invocation. -/
def isManagerEv : Ev → Bool
  | Ev.managerUpdate _ => true
  | _ => false

/-- Recognizer for the embedded-frame applicator invocation. -/
def isPreviewEv : Ev → Bool
  | Ev.previewUpdate _ => true
  | _ => false

/-- The ordering asserted by the spec for `setMode`: the notification is
emitted only after both the shell and the frame applicators have run. -/
def emitAfterApplicators (tr : List Ev) : Bool :=
  (tr.findIdx isManagerEv < tr.findIdx isEmitEv)
    && (tr.findIdx isPreviewEv < tr.findIdx isEmitEv)

/-- A record whose two class names coincide, as any caller may configure. -/
def sharedClassRecord : DarkModeParams :=
  { current := some Mode.dark, dark := 0, darkClass := "dark",
    light := 1, lightClass := "dark", previewParams := none }

/-- A record with the default, distinct class names. -/
def distinctClassRecord : DarkModeParams :=
  { current := some Mode.dark, dark := 0, darkClass := "dark",
    light := 1, lightClass := "light", previewParams := none }

/-- A persisted record whose user-chosen mode is light. -/
def persistedLightRecord : DarkModeParams :=
  { current := some Mode.light, dark := 0, darkClass := "dark",
    light := 1, lightClass := "light", previewParams := none }

/-- A caller configuration supplying only the default mode dark. -/
def darkCurrentParams : Overrides := { current := some Mode.dark }

/-- The trace of `setMode` on an empty slot with the preview configured. -/
def sampleSetModeTrace : List Ev :=
  [Ev.setOptions defaultDarkTheme, Ev.setDark true, Ev.emitDark true,
   Ev.managerUpdate (mergeDefaults noOverrides),
   Ev.previewUpdate (mergeDefaults noOverrides)]

/-! Helper lemmas -/

theorem store_none_eq (u : Overrides) :
    store none u = Except.ok (mergeDefaults u, none, []) := rfl

theorem store_record_noOverrides (s : DarkModeParams) :
    store (some (SlotContent.record s)) noOverrides =
      Except.ok (s, some (SlotContent.record s), []) := rfl

theorem store_malformed_eq (s : String) (u : Overrides) :
    store (some (SlotContent.malformed s)) u =
      Except.error ("SyntaxError: JSON.parse on " ++ s) := rfl

/-- Shape of every successful `setMode` run: the slot is untouched and the
trace is exactly the five (or four) side effects in source order. -/
theorem setMode_ok_shape (slot : Slot) (pp : Bool) (m : Mode)
    (slot' : Slot) (tr : List Ev)
    (h : setMode slot pp m = Except.ok (slot', tr)) :
    ∃ cur, slot' = slot ∧
      tr = [Ev.setOptions (themeFor cur m), Ev.setDark (m == Mode.dark),
            Ev.emitDark (m == Mode.dark), Ev.managerUpdate cur]
          ++ (if pp then [Ev.previewUpdate cur] else []) := by
  match slot with
  | none =>
      refine ⟨mergeDefaults noOverrides, ?_⟩
      rw [setMode, store_none_eq] at h
      simp only [List.nil_append, Except.ok.injEq, Prod.mk.injEq] at h
      exact ⟨h.1.symm, h.2.symm⟩
  | some (SlotContent.malformed s) =>
      rw [setMode, store_malformed_eq] at h
      exact absurd h (by simp)
  | some (SlotContent.record s) =>
      refine ⟨s, ?_⟩
      rw [setMode, store_record_noOverrides] at h
      simp only [List.nil_append, Except.ok.injEq, Prod.mk.injEq] at h
      exact ⟨h.1.symm, h.2.symm⟩

theorem setMode_record_eq (s : DarkModeParams) (pp : Bool) (m : Mode) :
    setMode (some (SlotContent.record s)) pp m =
      Except.ok (some (SlotContent.record s),
        [Ev.setOptions (themeFor s m), Ev.setDark (m == Mode.dark),
         Ev.emitDark (m == Mode.dark), Ev.managerUpdate s]
        ++ (if pp then [Ev.previewUpdate s] else [])) := by
  rw [setMode, store_record_noOverrides]
  rfl

theorem updateMode_record_eq (s : DarkModeParams) (pp : Bool)
    (mo : Option Mode) :
    updateMode (some (SlotContent.record s)) pp mo =
      (let tgt : Mode :=
        match mo with
        | some m => m
        | none => if s.current = some Mode.dark then Mode.light else Mode.dark
      Except.ok (some (SlotContent.record { s with current := some tgt }),
        Ev.write { s with current := some tgt } ::
          ([Ev.setOptions (themeFor { s with current := some tgt } tgt),
            Ev.setDark (tgt == Mode.dark), Ev.emitDark (tgt == Mode.dark),
            Ev.managerUpdate { s with current := some tgt }]
          ++ (if pp then
                [Ev.previewUpdate { s with current := some tgt }]
              else [])))) := by
  rw [updateMode, store_record_noOverrides]
  simp only [updateStore, setMode_record_eq, List.nil_append]
  rfl

theorem mem_classListAdd_self (cls : List String) (c : String) :
    c ∈ classListAdd cls c := by
  unfold classListAdd
  split
  · assumption
  · simp

theorem classListAdd_of_mem {cls : List String} {c : String} (h : c ∈ cls) :
    classListAdd cls c = cls := by
  simp [classListAdd, h]

theorem not_mem_classListRemove (cls : List String) (c : String) :
    c ∉ classListRemove cls c := by
  simp [classListRemove]

theorem mem_classListRemove_iff {x c : String} {cls : List String} :
    x ∈ classListRemove cls c ↔ x ∈ cls ∧ x ≠ c := by
  simp [classListRemove]

theorem classListRemove_of_not_mem {cls : List String} {c : String}
    (h : c ∉ cls) : classListRemove cls c = cls := by
  rw [classListRemove, List.filter_eq_self]
  intro x hx
  simp only [decide_eq_true_eq]
  exact fun he => h (he ▸ hx)

/-- Add-the-active, remove-the-inactive is idempotent, even when both class
names coincide. -/
theorem addRemove_idem (cls : List String) (a b : String) :
    classListRemove (classListAdd (classListRemove (classListAdd cls a) b) a) b
      = classListRemove (classListAdd cls a) b := by
  by_cases hab : a = b
  · subst hab
    have ha : a ∉ classListRemove (classListAdd cls a) a :=
      not_mem_classListRemove _ _
    have h1 : classListAdd (classListRemove (classListAdd cls a) a) a =
        classListRemove (classListAdd cls a) a ++ [a] := by
      rw [classListAdd, if_neg ha]
    rw [h1, classListRemove, List.filter_append]
    simp [classListRemove, List.filter_filter]
  · have haR : a ∈ classListRemove (classListAdd cls a) b :=
      mem_classListRemove_iff.mpr ⟨mem_classListAdd_self cls a, hab⟩
    rw [classListAdd_of_mem haR]
    exact classListRemove_of_not_mem (not_mem_classListRemove _ _)

/-! Claim theorems -/

/-- C8 counterexample: with `current = dark` and `darkClass = lightClass =
"dark"`, one `toggleDarkClass` call on an element with no classes leaves the
class set empty, so the active mode's class is absent, refuting the claim
that after the call the active mode's class is present. -/
theorem C8_counterexample :
    sharedClassRecord.current = some Mode.dark ∧
    sharedClassRecord.darkClass = "dark" ∧
    toggleDarkClass [] sharedClassRecord = [] ∧
    sharedClassRecord.darkClass ∉ toggleDarkClass [] sharedClassRecord := by
  exact ⟨rfl, rfl, rfl, fun h => List.not_mem_nil _ h⟩

/-- C8 (amended): calling `toggleDarkClass` twice with the same record
leaves the element's class set exactly as one call does (idempotence, for
every record); and whenever the two configured class names differ, after a
call the active mode's class is present and the inactive mode's class is
absent. -/
theorem C8_toggleDarkClass_idempotent (cls : List String) (r : DarkModeParams) :
    toggleDarkClass (toggleDarkClass cls r) r = toggleDarkClass cls r ∧
    (r.darkClass ≠ r.lightClass →
      (r.current = some Mode.dark →
        r.darkClass ∈ toggleDarkClass cls r ∧
        r.lightClass ∉ toggleDarkClass cls r) ∧
      (r.current ≠ some Mode.dark →
        r.lightClass ∈ toggleDarkClass cls r ∧
        r.darkClass ∉ toggleDarkClass cls r)) := by
  constructor
  · by_cases h : r.current = some Mode.dark <;>
      simp [toggleDarkClass, h, addRemove_idem]
  · intro hne
    constructor
    · intro h
      rw [toggleDarkClass, if_pos h]
      exact ⟨mem_classListRemove_iff.mpr ⟨mem_classListAdd_self _ _, hne⟩,
        not_mem_classListRemove _ _⟩
    · intro h
      rw [toggleDarkClass, if_neg h]
      exact ⟨mem_classListRemove_iff.mpr
          ⟨mem_classListAdd_self _ _, fun he => hne he.symm⟩,
        not_mem_classListRemove _ _⟩

/-- C8 witness: the amended theorem applied at a concrete record. -/
theorem C8_toggleDarkClass_idempotent_witness :
    distinctClassRecord.darkClass ∈ toggleDarkClass [] distinctClassRecord ∧
    distinctClassRecord.lightClass ∉ toggleDarkClass [] distinctClassRecord :=
  ((C8_toggleDarkClass_idempotent [] distinctClassRecord).2
    (by decide)).1 rfl

/-- C9: whenever the storage slot holds a string that cannot be
deserialized as a record, `store` propagates the `JSON.parse` error to the
caller instead of returning defaults or fabricating a record. -/
theorem C9_malformed_propagates (s : String) (o : Overrides) :
    ∃ e, store (some (SlotContent.malformed s)) o = Except.error e :=
  ⟨"SyntaxError: JSON.parse on " ++ s, rfl⟩

/-- C10: with no persisted record, `store o` returns the defaults merged
with the overrides, performs no storage write, and leaves the slot empty. -/
theorem C10_no_write_on_first_read (o : Overrides) :
    store none o = Except.ok (mergeDefaults o, none, []) ∧
    (mergeDefaults o).dark = o.dark.getD defaultDarkTheme ∧
    (mergeDefaults o).light = o.light.getD defaultLightTheme ∧
    (mergeDefaults o).current = o.current :=
  ⟨rfl, rfl, rfl, rfl⟩

/-- C6: persisting the record returned by `store o` (`updateStore`) and then
reading back with empty overrides yields a record structurally equal to the
one `store o` returned, with no further write. -/
theorem C6_persist_load_roundtrip (slot : Slot) (o : Overrides)
    (r : DarkModeParams) (slot1 : Slot) (w : List Ev)
    (_h : store slot o = Except.ok (r, slot1, w)) :
    store (updateStore r slot1).1 noOverrides =
      Except.ok (r, some (SlotContent.record r), []) :=
  store_record_noOverrides r

/-- C6 witness: the round trip at the empty slot and empty overrides. -/
theorem C6_persist_load_roundtrip_witness :
    store (updateStore (mergeDefaults noOverrides) none).1 noOverrides =
      Except.ok (mergeDefaults noOverrides,
        some (SlotContent.record (mergeDefaults noOverrides)), []) :=
  C6_persist_load_roundtrip none noOverrides (mergeDefaults noOverrides)
    none [] rfl

/-- C7: a successful `setMode` call leaves the storage slot exactly as it
was and performs no storage write at all; committing a mode as `current`
is done only by `updateMode`. -/
theorem C7_setMode_does_not_persist (slot : Slot) (pp : Bool) (m : Mode)
    (slot' : Slot) (tr : List Ev)
    (h : setMode slot pp m = Except.ok (slot', tr)) :
    slot' = slot ∧ ∀ r, Ev.write r ∉ tr := by
  obtain ⟨cur, hs, htr⟩ := setMode_ok_shape slot pp m slot' tr h
  subst htr
  refine ⟨hs, fun r hr => ?_⟩
  cases pp <;> simp_all

/-- C7 witness: `setMode` on the empty slot with mode dark. -/
theorem C7_setMode_does_not_persist_witness :
    (none : Slot) = none ∧
    ∀ r, Ev.write r ∉
      [Ev.setOptions defaultDarkTheme, Ev.setDark true, Ev.emitDark true,
       Ev.managerUpdate (mergeDefaults noOverrides)] :=
  C7_setMode_does_not_persist none false Mode.dark none _ rfl

/-- C2 counterexample: at the empty slot with the preview configured,
`setMode dark` produces a trace in which the notification is NOT emitted
after the two applicators (it is emitted before them), refuting the
claimed emission ordering. -/
theorem C2_counterexample :
    (setMode none true Mode.dark).map (fun p => emitAfterApplicators p.2) =
      Except.ok false := rfl

/-- C2 (amended): a single successful `setMode m` emits exactly one
mode-changed notification, whose payload is the boolean `m == dark`; but
the emission occurs BEFORE the applicators: the trace order is
`setOptions`, `setDark`, the emission, then the host-shell applicator and
then (when configured) the embedded-frame applicator, so the shell still
precedes the frame. -/
theorem C2_single_emit_order (slot : Slot) (pp : Bool) (m : Mode)
    (slot' : Slot) (tr : List Ev)
    (h : setMode slot pp m = Except.ok (slot', tr)) :
    tr.countP isEmitEv = 1 ∧
    tr.findIdx isEmitEv < tr.findIdx isManagerEv ∧
    (pp → tr.findIdx isManagerEv < tr.findIdx isPreviewEv) ∧
    (∃ cur,
      tr = [Ev.setOptions (themeFor cur m), Ev.setDark (m == Mode.dark),
            Ev.emitDark (m == Mode.dark), Ev.managerUpdate cur]
          ++ (if pp then [Ev.previewUpdate cur] else [])) := by
  obtain ⟨cur, _, htr⟩ := setMode_ok_shape slot pp m slot' tr h
  subst htr
  refine ⟨?_, ?_, ?_, cur, rfl⟩ <;>
    cases pp <;>
      simp [isEmitEv, isManagerEv, isPreviewEv, List.countP_cons,
        List.findIdx_cons]

/-- C2 witness: the amended theorem at the empty slot with preview. -/
theorem C2_single_emit_order_witness :
    sampleSetModeTrace.countP isEmitEv = 1 :=
  (C2_single_emit_order none true Mode.dark none sampleSetModeTrace rfl).1

/-- C4: on a stored record `s`, `store o` replaces `s.dark` (respectively
`s.light`) exactly when the override supplies that theme field (any
supplied value lands in the result, and it differs from the stored one
exactly when a replacement happened); a write-through to storage occurs if
and only if a supplied theme value is structurally unequal to the stored
one; all other fields, `current` included, are never altered. -/
theorem C4_merge_invariant (s : DarkModeParams) (o : Overrides)
    (r : DarkModeParams) (slot' : Slot) (w : List Ev)
    (h : store (some (SlotContent.record s)) o = Except.ok (r, slot', w)) :
    r.dark = (match o.dark with | some d => d | none => s.dark) ∧
    r.light = (match o.light with | some l => l | none => s.light) ∧
    r.current = s.current ∧
    r.darkClass = s.darkClass ∧
    r.lightClass = s.lightClass ∧
    r.previewParams = s.previewParams ∧
    (w ≠ [] ↔
      (∃ d, o.dark = some d ∧ d ≠ s.dark) ∨
      (∃ l, o.light = some l ∧ l ≠ s.light)) ∧
    (w = [] → slot' = some (SlotContent.record s)) ∧
    (w ≠ [] → slot' = some (SlotContent.record r)) := by
  rcases hd : o.dark with _ | d <;> rcases hl : o.light with _ | l
  · simp [store, hd, hl] at h
    obtain ⟨h1, h2, h3⟩ := h
    subst h1; subst h2; subst h3
    simp [hd, hl]
  · by_cases hll : l = s.light
    · subst hll
      simp [store, hd, hl] at h
      obtain ⟨h1, h2, h3⟩ := h
      subst h1; subst h2; subst h3
      simp [hd, hl]
    · simp [store, hd, hl, hll] at h
      obtain ⟨h1, h2, h3⟩ := h
      subst h1; subst h2; subst h3
      simp [hd, hl, hll]
  · by_cases hdd : d = s.dark
    · subst hdd
      simp [store, hd, hl] at h
      obtain ⟨h1, h2, h3⟩ := h
      subst h1; subst h2; subst h3
      simp [hd, hl]
    · simp [store, hd, hl, hdd] at h
      obtain ⟨h1, h2, h3⟩ := h
      subst h1; subst h2; subst h3
      simp [hd, hl, hdd]
  · by_cases hdd : d = s.dark <;> by_cases hll : l = s.light
    · subst hdd; subst hll
      simp [store, hd, hl] at h
      obtain ⟨h1, h2, h3⟩ := h
      subst h1; subst h2; subst h3
      simp [hd, hl]
    · subst hdd
      simp [store, hd, hl, hll] at h
      obtain ⟨h1, h2, h3⟩ := h
      subst h1; subst h2; subst h3
      simp [hd, hl, hll]
    · subst hll
      simp [store, hd, hl, hdd] at h
      obtain ⟨h1, h2, h3⟩ := h
      subst h1; subst h2; subst h3
      simp [hd, hl, hdd]
    · simp [store, hd, hl, hdd, hll] at h
      obtain ⟨h1, h2, h3⟩ := h
      subst h1; subst h2; subst h3
      simp [hd, hl, hdd, hll]

/-- C4 witness: the merge invariant at a concrete stored record with empty
overrides. -/
theorem C4_merge_invariant_witness :
    distinctClassRecord.current = distinctClassRecord.current :=
  (C4_merge_invariant distinctClassRecord noOverrides distinctClassRecord
    (some (SlotContent.record distinctClassRecord)) [] rfl).2.2.1

/-- C5: on a stored record, `updateMode` with no argument persists as
`current` exactly the complement of the record's current mode; with an
explicit argument that mode is persisted as `current` and `setMode` is then
invoked on it (its `setDark`/emission side effects appear in the trace);
and the persisted value is always one of the two modes. -/
theorem C5_updateMode_toggle (s : DarkModeParams) (pp : Bool) :
    (∀ m, s.current = some m →
      (updateMode (some (SlotContent.record s)) pp none).map
          (fun p => slotCurrent p.1) =
        Except.ok (some (some (flipMode m)))) ∧
    (∀ m',
      (updateMode (some (SlotContent.record s)) pp (some m')).map
          (fun p => slotCurrent p.1) = Except.ok (some (some m')) ∧
      ∃ slot' tr,
        updateMode (some (SlotContent.record s)) pp (some m') =
          Except.ok (slot', tr) ∧
        Ev.setDark (m' == Mode.dark) ∈ tr ∧
        Ev.emitDark (m' == Mode.dark) ∈ tr) ∧
    (∀ mo slot' tr,
      updateMode (some (SlotContent.record s)) pp mo =
        Except.ok (slot', tr) →
      slotCurrent slot' = some (some Mode.light) ∨
      slotCurrent slot' = some (some Mode.dark)) := by
  refine ⟨?_, ?_, ?_⟩
  · intro m hm
    cases m <;> rw [updateMode_record_eq] <;>
      simp [hm, flipMode, slotCurrent, Except.map]
  · intro m'
    rw [updateMode_record_eq]
    refine ⟨by simp [slotCurrent, Except.map], _, _, rfl, ?_, ?_⟩ <;>
      cases pp <;> simp
  · intro mo slot' tr h
    rw [updateMode_record_eq] at h
    rcases mo with _ | m
    · by_cases hc : s.current = some Mode.dark <;>
        simp [hc, Except.ok.injEq] at h <;>
        simp [← h.1, slotCurrent]
    · cases m <;> simp [Except.ok.injEq] at h <;> simp [← h.1, slotCurrent]

/-- C5 witness: the toggle at a concrete record whose current mode is
dark persists light. -/
theorem C5_updateMode_toggle_witness :
    (updateMode (some (SlotContent.record distinctClassRecord)) false
        none).map (fun p => slotCurrent p.1) =
      Except.ok (some (some Mode.light)) :=
  (C5_updateMode_toggle distinctClassRecord false).1 Mode.dark rfl

/-- C3: when no persisted record exists, the recorded `initialMode` is
absent (the object passed to the first `store` call never carries
`current`), so the initialization effect resolves by strict priority: a
supplied caller default is passed to `updateMode` whatever the system
preference is; otherwise dark is passed exactly when the system
color-scheme signal matches dark; otherwise no update is made. -/
theorem C3_init_priority (dmp : Overrides) (pd : Bool) :
    (store none (restParams dmp)).map (fun p => p.1.current) =
      Except.ok none ∧
    (∀ d, initEffect none (some d) pd = some d) ∧
    initEffect none none pd = (if pd then some Mode.dark else none) :=
  ⟨rfl, fun _ => rfl, rfl⟩

/-- C1: the claim fails on the code. With a persisted record whose
`current` is light and a caller configuration whose `current` is dark, the
initialization effect indeed does nothing (second conjunct), but the
configuration-load effect spreads the full parameter object, `current`
included, over the stored record and re-persists it, so after the mount
sequence the persisted `current` is dark, not light (third conjunct) —
although the code's own comments say only the stored themes are updated
and that a user-set mode is respected. -/
theorem C1_default_overrides_persisted_mode :
    slotCurrent (some (SlotContent.record persistedLightRecord)) =
      some (some Mode.light) ∧
    initEffect (some Mode.light) (some Mode.dark) false = none ∧
    (mount (some (SlotContent.record persistedLightRecord))
        darkCurrentParams false).map (fun p => slotCurrent p.1) =
      Except.ok (some (some Mode.dark)) :=
  ⟨rfl, rfl, rfl⟩

end SB
